import Mathlib

/-!
# Verification of the forex-simulation core (`src/app.py`)

Shallow embedding of the two core functions of the repository:

* `forex_simulation` (the spec's `compare` / Comparator), lines 9–29 of
  `app.py`: compares the direct INR→Foreign route against the
  INR→USD→Foreign route and computes both break-even figures.
* `plot_forex_graph` (the spec's `generateCurve` / CurveGenerator),
  lines 32–59: samples the indirect-route yield over a range of
  USD→Foreign rates.  Only its data computation (lines 34–44) is
  modelled; the matplotlib rendering calls are presentation.

Real numbers are modelled by `ℚ` (exact arithmetic idealising the
source's floats).  Python raises `ZeroDivisionError` when dividing by
zero, so division is modelled by `pyDiv`, returning `Except`, and both
functions are fallible.  Divisions the source performs only under a
guard that makes the divisor nonzero (lines 19 and 22) are modelled by
plain `/` under the same guard.
-/

/-- Python division: raises `ZeroDivisionError` on a zero divisor
(`a / b` in Python raises for ints and floats alike), otherwise exact
quotient. -/
def pyDiv (a b : ℚ) : Except String ℚ :=
  if b = 0 then Except.error "ZeroDivisionError" else Except.ok (a / b)

/-- The dictionary returned by `forex_simulation` (app.py lines 24–29):
keys "Foreign via Direct (India)", "Foreign via USD abroad",
"Break-even INR/Foreign", "Break-even USD/Foreign".  The two break-even
entries can be Python `None`, hence `Option`. -/
structure SimResult where
  foreignDirect : ℚ
  foreignViaUsd : ℚ
  breakEvenInrToForeign : Option ℚ
  breakEvenUsdToForeign : Option ℚ
  deriving Repr, DecidableEq

/-- app.py lines 9–29.  `forex_simulation(budget_inr, inr_to_foreign_direct,
inr_to_usd, usd_to_foreign)`:

```python
foreign_direct = budget_inr / inr_to_foreign_direct
usd_amount = budget_inr / inr_to_usd
foreign_via_usd = usd_amount * usd_to_foreign
break_even_inr_to_foreign = budget_inr / foreign_via_usd if foreign_via_usd > 0 else None
break_even_usd_to_foreign = inr_to_usd / inr_to_foreign_direct if inr_to_foreign_direct > 0 else None
```

The guarded conditional divisions (lines 19, 22) only divide when the
guard holds, which forces the divisor nonzero, so they cannot raise. -/
def forex_simulation (budget_inr inr_to_foreign_direct inr_to_usd usd_to_foreign : ℚ) :
    Except String SimResult := do
  let foreign_direct ← pyDiv budget_inr inr_to_foreign_direct
  let usd_amount ← pyDiv budget_inr inr_to_usd
  let foreign_via_usd := usd_amount * usd_to_foreign
  let break_even_inr_to_foreign : Option ℚ :=
    if foreign_via_usd > 0 then some (budget_inr / foreign_via_usd) else none
  let break_even_usd_to_foreign : Option ℚ :=
    if inr_to_foreign_direct > 0 then some (inr_to_usd / inr_to_foreign_direct) else none
  return { foreignDirect := foreign_direct
           foreignViaUsd := foreign_via_usd
           breakEvenInrToForeign := break_even_inr_to_foreign
           breakEvenUsdToForeign := break_even_usd_to_foreign }

/-- `numpy.linspace(start, stop, num)` with `endpoint=True`:
`num` evenly spaced samples of `[start, stop]`, sample `i` being
`start + (stop - start) * i / (num - 1)` (exact over `ℚ`). -/
def linspace (start stop : ℚ) (num : ℕ) : List ℚ :=
  (List.range num).map fun i : ℕ => start + (stop - start) * (i : ℚ) / ((num : ℚ) - 1)

/-- The data `plot_forex_graph` computes before handing it to matplotlib
(app.py lines 34–44): the sampled rates, the constant direct yield, the
indirect yields at each sampled rate, and the break-even rate. -/
structure CurveData where
  usdRates : List ℚ
  foreignDirect : ℚ
  foreignViaUsd : List ℚ
  breakEvenUsdToForeign : ℚ
  deriving Repr, DecidableEq

/-- app.py lines 32–44.  `plot_forex_graph(budget_inr,
inr_to_foreign_direct, inr_to_usd, usd_to_foreign_range)`:

```python
usd_rates = np.linspace(min(usd_to_foreign_range), max(usd_to_foreign_range), 100)
foreign_direct = budget_inr / inr_to_foreign_direct
usd_amount = budget_inr / inr_to_usd
foreign_via_usd = usd_amount * usd_rates
break_even_usd_to_foreign = inr_to_usd / inr_to_foreign_direct
```

Python's `min`/`max` on the 2-tuple return the smaller/larger bound, so
a reversed range is silently normalised, never rejected. -/
def plot_forex_graph (budget_inr inr_to_foreign_direct inr_to_usd : ℚ)
    (usd_to_foreign_range : ℚ × ℚ) : Except String CurveData := do
  let usd_rates := linspace (min usd_to_foreign_range.1 usd_to_foreign_range.2)
    (max usd_to_foreign_range.1 usd_to_foreign_range.2) 100
  let foreign_direct ← pyDiv budget_inr inr_to_foreign_direct
  let usd_amount ← pyDiv budget_inr inr_to_usd
  let foreign_via_usd := usd_rates.map fun r => usd_amount * r
  let break_even_usd_to_foreign ← pyDiv inr_to_usd inr_to_foreign_direct
  return { usdRates := usd_rates
           foreignDirect := foreign_direct
           foreignViaUsd := foreign_via_usd
           breakEvenUsdToForeign := break_even_usd_to_foreign }

/-- Evaluation of `forex_simulation` when neither division raises. -/
theorem forex_simulation_ok (b d h u : ℚ) (hd : d ≠ 0) (hh : h ≠ 0) :
    forex_simulation b d h u =
      Except.ok { foreignDirect := b / d
                  foreignViaUsd := b / h * u
                  breakEvenInrToForeign :=
                    if b / h * u > 0 then some (b / (b / h * u)) else none
                  breakEvenUsdToForeign := if d > 0 then some (h / d) else none } := by
  simp [forex_simulation, pyDiv, hd, hh, Bind.bind, Except.bind, Pure.pure, Except.pure]

/-- Evaluation of `plot_forex_graph` when neither division raises. -/
theorem plot_forex_graph_ok (b d h : ℚ) (lo hi : ℚ) (hd : d ≠ 0) (hh : h ≠ 0) :
    plot_forex_graph b d h (lo, hi) =
      Except.ok { usdRates := linspace (min lo hi) (max lo hi) 100
                  foreignDirect := b / d
                  foreignViaUsd := (linspace (min lo hi) (max lo hi) 100).map
                    fun r => b / h * r
                  breakEvenUsdToForeign := h / d } := by
  simp [plot_forex_graph, pyDiv, hd, hh, Bind.bind, Except.bind, Pure.pure, Except.pure]

/-- `linspace` produces exactly `num` samples. -/
theorem linspace_length (a b : ℚ) (n : ℕ) : (linspace a b n).length = n := by
  unfold linspace
  rw [List.length_map, List.length_range]

/-- Sample `i` of the 100-point `linspace` is `a + (b - a) * i / 99`. -/
theorem linspace_getElem (a b : ℚ) (i : ℕ) (h : i < (linspace a b 100).length) :
    (linspace a b 100)[i] = a + (b - a) * i / 99 := by
  unfold linspace at h ⊢
  rw [List.getElem_map, List.getElem_range]
  norm_num

/-- The first sample of the 100-point `linspace` is the start value. -/
theorem linspace_head (a b : ℚ) : (linspace a b 100).head? = some a := by
  rw [List.head?_eq_getElem?, List.getElem?_eq_getElem (by rw [linspace_length]; norm_num),
    linspace_getElem]
  norm_num

/-- The last sample of the 100-point `linspace` is the stop value. -/
theorem linspace_last (a b : ℚ) : (linspace a b 100).getLast? = some b := by
  rw [List.getLast?_eq_getElem?, linspace_length,
    List.getElem?_eq_getElem (by rw [linspace_length]; norm_num), linspace_getElem]
  norm_num

/-- C1: for every positive budget, directRate, homeToIntermediateRate and
intermediateToForeignRate, `forex_simulation` (the spec's `compare`) returns
exactly `directYield = budget / directRate`,
`intermediateAmount = budget / homeToIntermediateRate`,
`indirectYield = intermediateAmount * intermediateToForeignRate`,
`breakEvenDirectRate = budget / indirectYield` and
`breakEvenIntermediateToForeignRate = homeToIntermediateRate / directRate`. -/
theorem spec_C1_compare_formulas (b d h u : ℚ)
    (hb : 0 < b) (hd : 0 < d) (hh : 0 < h) (hu : 0 < u) :
    forex_simulation b d h u =
      Except.ok { foreignDirect := b / d
                  foreignViaUsd := b / h * u
                  breakEvenInrToForeign := some (b / (b / h * u))
                  breakEvenUsdToForeign := some (h / d) } := by
  rw [forex_simulation_ok b d h u hd.ne' hh.ne']
  have hy : 0 < b / h * u := mul_pos (div_pos hb hh) hu
  simp [hy, hd]

/-- C1 witness: the concrete scenario budget=100000, directRate=1.41,
homeToIntermediateRate=89.1, intermediateToForeignRate=72.5 gives
directYield ≈ 70921.99, indirectYield ≈ 81369.25, breakEvenDirectRate ≈ 1.2290
and breakEvenIntermediateToForeignRate ≈ 63.191. -/
theorem spec_C1_compare_formulas_witness :
    forex_simulation 100000 (141 / 100) (891 / 10) (145 / 2) =
      Except.ok { foreignDirect := 10000000 / 141
                  foreignViaUsd := 72500000 / 891
                  breakEvenInrToForeign := some (891 / 725)
                  breakEvenUsdToForeign := some (2970 / 47) } ∧
    |(10000000 : ℚ) / 141 - 70921.99| < 1 / 100 ∧
    |(72500000 : ℚ) / 891 - 81369.25| < 1 / 100 ∧
    |(891 : ℚ) / 725 - 1.2290| < 1 / 1000 ∧
    |(2970 : ℚ) / 47 - 63.191| < 1 / 1000 := by
  refine ⟨?_, by norm_num [abs_lt], by norm_num [abs_lt],
    by norm_num [abs_lt], by norm_num [abs_lt]⟩
  rw [spec_C1_compare_formulas 100000 (141 / 100) (891 / 10) (145 / 2)
    (by norm_num) (by norm_num) (by norm_num) (by norm_num)]
  norm_num

/-- C2 counterexample: no validation step exists.  `forex_simulation` with
budget 0 returns a normal result (no InvalidInput), and `plot_forex_graph`
with the reversed range (85, 60) also returns a normal result: neither
surfaces an error. -/
theorem spec_C2_counterexample_no_invalid_input :
    forex_simulation 0 (141 / 100) (891 / 10) (145 / 2) =
      Except.ok { foreignDirect := 0
                  foreignViaUsd := 0
                  breakEvenInrToForeign := none
                  breakEvenUsdToForeign := some (2970 / 47) } ∧
    ∃ c, plot_forex_graph 100000 (141 / 100) (891 / 10) (85, 60) = Except.ok c := by
  constructor
  · rw [forex_simulation_ok 0 (141 / 100) (891 / 10) (145 / 2) (by norm_num) (by norm_num)]
    norm_num
  · exact ⟨_, plot_forex_graph_ok 100000 (141 / 100) (891 / 10) 85 60
      (by norm_num) (by norm_num)⟩

/-- C2 amended: the code performs no boundary validation.  With nonzero
divisor rates, `forex_simulation` accepts budget 0 and returns a result
(whose break-even direct rate is the absent value), and `plot_forex_graph`
accepts a reversed range and returns a full curve sampling from the smaller
to the larger bound. -/
theorem spec_C2_amended_no_validation (b d h u lo hi : ℚ) (hd : 0 < d) (hh : 0 < h) :
    (∃ r, forex_simulation 0 d h u = Except.ok r ∧ r.breakEvenInrToForeign = none) ∧
    (∃ c, plot_forex_graph b d h (hi, lo) = Except.ok c ∧
      c.usdRates.head? = some (min lo hi) ∧ c.usdRates.getLast? = some (max lo hi)) := by
  constructor
  · refine ⟨_, forex_simulation_ok 0 d h u hd.ne' hh.ne', ?_⟩
    norm_num
  · refine ⟨_, plot_forex_graph_ok b d h hi lo hd.ne' hh.ne', ?_, ?_⟩
    · rw [min_comm hi lo]; exact linspace_head _ _
    · rw [min_comm hi lo, max_comm hi lo]; exact linspace_last _ _

/-- C2 amended, witness at the concrete inputs of the claim. -/
theorem spec_C2_amended_no_validation_witness :
    (∃ r, forex_simulation 0 (141 / 100) (891 / 10) (145 / 2) = Except.ok r ∧
      r.breakEvenInrToForeign = none) ∧
    (∃ c, plot_forex_graph 100000 (141 / 100) (891 / 10) (85, 60) = Except.ok c ∧
      c.usdRates.head? = some (min 60 85) ∧ c.usdRates.getLast? = some (max 60 85)) :=
  spec_C2_amended_no_validation 100000 (141 / 100) (891 / 10) (145 / 2) 60 85
    (by norm_num) (by norm_num)

/-- C3: whenever the computed indirect yield is not strictly positive (and
both unguarded divisions succeed, so the computation reaches that point),
the break-even direct rate is the explicit absent value `none`, no error is
raised, and the remaining fields are produced normally. -/
theorem spec_C3_undefined_breakeven (b d h u : ℚ) (hd : d ≠ 0) (hh : h ≠ 0)
    (hy : b / h * u ≤ 0) :
    forex_simulation b d h u =
      Except.ok { foreignDirect := b / d
                  foreignViaUsd := b / h * u
                  breakEvenInrToForeign := none
                  breakEvenUsdToForeign := if d > 0 then some (h / d) else none } := by
  rw [forex_simulation_ok b d h u hd hh]
  simp [if_neg (not_lt.mpr hy)]

/-- C3 witness: a zero intermediate→foreign rate yields indirectYield 0 and
an absent break-even direct rate, with the other fields intact. -/
theorem spec_C3_undefined_breakeven_witness :
    forex_simulation 100000 (141 / 100) (891 / 10) 0 =
      Except.ok { foreignDirect := 10000000 / 141
                  foreignViaUsd := 0
                  breakEvenInrToForeign := none
                  breakEvenUsdToForeign := some (2970 / 47) } := by
  rw [spec_C3_undefined_breakeven 100000 (141 / 100) (891 / 10) 0
    (by norm_num) (by norm_num) (by norm_num)]
  norm_num

/-- C4: for every valid rateRange (min, max) with positive bounds and
min ≤ max, `plot_forex_graph` (the spec's `generateCurve`) produces exactly
100 sample rates, evenly spaced with spacing (max − min) / 99, whose first
element equals min and whose last equals max; when min = max all 100 samples
equal that value and no error occurs. -/
theorem spec_C4_sample_count_and_bounds (b d h lo hi : ℚ)
    (hd : 0 < d) (hh : 0 < h) (hlo : 0 < lo) (hle : lo ≤ hi) :
    ∃ c, plot_forex_graph b d h (lo, hi) = Except.ok c ∧
      c.usdRates.length = 100 ∧
      c.usdRates.head? = some lo ∧
      c.usdRates.getLast? = some hi ∧
      (∀ i : ℕ, ∀ hb1 : i < c.usdRates.length,
        c.usdRates[i] = lo + (hi - lo) * i / 99) ∧
      (∀ i : ℕ, ∀ hb1 : i + 1 < c.usdRates.length, ∀ hb0 : i < c.usdRates.length,
        c.usdRates[i + 1] - c.usdRates[i] = (hi - lo) / 99) ∧
      (lo = hi → ∀ r ∈ c.usdRates, r = lo) := by
  refine ⟨_, plot_forex_graph_ok b d h lo hi hd.ne' hh.ne', ?_, ?_, ?_, ?_, ?_, ?_⟩ <;>
    dsimp only <;> rw [min_eq_left hle, max_eq_right hle]
  · exact linspace_length lo hi 100
  · exact linspace_head lo hi
  · exact linspace_last lo hi
  · intro i hb1
    exact linspace_getElem lo hi i hb1
  · intro i hb1 hb0
    rw [linspace_getElem lo hi (i + 1) hb1, linspace_getElem lo hi i hb0]
    push_cast
    ring
  · intro heq r hr
    subst heq
    obtain ⟨i, hi2, rfl⟩ := List.mem_iff_getElem.mp hr
    rw [linspace_getElem]
    ring

/-- C4 witness: the default range (60, 85) with the default budget and
rates. -/
theorem spec_C4_witness :
    ∃ c, plot_forex_graph 100000 (141 / 100) (891 / 10) (60, 85) = Except.ok c ∧
      c.usdRates.length = 100 ∧
      c.usdRates.head? = some 60 ∧
      c.usdRates.getLast? = some 85 ∧
      (∀ i : ℕ, ∀ hb1 : i < c.usdRates.length,
        c.usdRates[i] = 60 + (85 - 60) * i / 99) ∧
      (∀ i : ℕ, ∀ hb1 : i + 1 < c.usdRates.length, ∀ hb0 : i < c.usdRates.length,
        c.usdRates[i + 1] - c.usdRates[i] = (85 - 60) / 99) ∧
      ((60 : ℚ) = 85 → ∀ r ∈ c.usdRates, r = 60) :=
  spec_C4_sample_count_and_bounds 100000 (141 / 100) (891 / 10) 60 85
    (by norm_num) (by norm_num) (by norm_num) (by norm_num)

/-- C5: for every positive budget and homeToIntermediateRate, the indirect
yield `plot_forex_graph` associates with each sampled rate r equals
(budget / homeToIntermediateRate) * r, so the difference quotient between
any two samples at distinct rates equals budget / homeToIntermediateRate. -/
theorem spec_C5_curve_linearity (b d h lo hi : ℚ) (hb : 0 < b) (hd : 0 < d) (hh : 0 < h) :
    ∃ c, plot_forex_graph b d h (lo, hi) = Except.ok c ∧
      c.foreignViaUsd.length = c.usdRates.length ∧
      (∀ i : ℕ, ∀ hb1 : i < c.usdRates.length, ∀ hb2 : i < c.foreignViaUsd.length,
        c.foreignViaUsd[i] = b / h * c.usdRates[i]) ∧
      (∀ i j : ℕ, ∀ hb1 : i < c.usdRates.length, ∀ hb2 : j < c.usdRates.length,
        ∀ hb3 : i < c.foreignViaUsd.length, ∀ hb4 : j < c.foreignViaUsd.length,
        c.usdRates[i] ≠ c.usdRates[j] →
        (c.foreignViaUsd[j] - c.foreignViaUsd[i]) /
          (c.usdRates[j] - c.usdRates[i]) = b / h) := by
  refine ⟨_, plot_forex_graph_ok b d h lo hi hd.ne' hh.ne', ?_, ?_, ?_⟩ <;> dsimp only
  · rw [List.length_map]
  · intro i hb1 hb2
    rw [List.getElem_map]
  · intro i j hb1 hb2 hb3 hb4 hne
    rw [List.getElem_map, List.getElem_map, ← mul_sub, mul_div_assoc,
      div_self (sub_ne_zero.mpr (Ne.symm hne)), mul_one]

/-- C5 witness: the default inputs with range (60, 85). -/
theorem spec_C5_witness :
    ∃ c, plot_forex_graph 100000 (141 / 100) (891 / 10) (60, 85) = Except.ok c ∧
      c.foreignViaUsd.length = c.usdRates.length ∧
      (∀ i : ℕ, ∀ hb1 : i < c.usdRates.length, ∀ hb2 : i < c.foreignViaUsd.length,
        c.foreignViaUsd[i] = 100000 / (891 / 10) * c.usdRates[i]) ∧
      (∀ i j : ℕ, ∀ hb1 : i < c.usdRates.length, ∀ hb2 : j < c.usdRates.length,
        ∀ hb3 : i < c.foreignViaUsd.length, ∀ hb4 : j < c.foreignViaUsd.length,
        c.usdRates[i] ≠ c.usdRates[j] →
        (c.foreignViaUsd[j] - c.foreignViaUsd[i]) /
          (c.usdRates[j] - c.usdRates[i]) = 100000 / (891 / 10)) :=
  spec_C5_curve_linearity 100000 (141 / 100) (891 / 10) 60 85
    (by norm_num) (by norm_num) (by norm_num)

/-- C6: for all positive budget, directRate and homeToIntermediateRate,
calling `forex_simulation` with the intermediate→foreign rate set to the
break-even rate homeToIntermediateRate / directRate makes the direct and
indirect yields exactly equal (hence within any tolerance). -/
theorem spec_C6_breakeven_symmetry (b d h : ℚ) (hb : 0 < b) (hd : 0 < d) (hh : 0 < h) :
    ∃ r, forex_simulation b d h (h / d) = Except.ok r ∧
      r.foreignDirect = r.foreignViaUsd := by
  refine ⟨_, forex_simulation_ok b d h (h / d) hd.ne' hh.ne', ?_⟩
  dsimp only
  rw [div_mul_div_comm, mul_comm, ← div_mul_div_comm, div_self hh.ne', one_mul]

/-- C6 witness: the default budget and rates, at the break-even
intermediate→foreign rate. -/
theorem spec_C6_witness :
    ∃ r, forex_simulation 100000 (141 / 100) (891 / 10) ((891 / 10) / (141 / 100)) =
      Except.ok r ∧ r.foreignDirect = r.foreignViaUsd :=
  spec_C6_breakeven_symmetry 100000 (141 / 100) (891 / 10)
    (by norm_num) (by norm_num) (by norm_num)

/-- C7: for all positive inputs, the break-even intermediate→foreign rate
returned by `forex_simulation` equals homeToIntermediateRate / directRate and
is identical for any two budgets when the other inputs are held fixed. -/
theorem spec_C7_budget_invariance (b1 b2 d h u : ℚ)
    (hb1 : 0 < b1) (hb2 : 0 < b2) (hd : 0 < d) (hh : 0 < h) (hu : 0 < u) :
    ∃ r1 r2, forex_simulation b1 d h u = Except.ok r1 ∧
      forex_simulation b2 d h u = Except.ok r2 ∧
      r1.breakEvenUsdToForeign = some (h / d) ∧
      r2.breakEvenUsdToForeign = r1.breakEvenUsdToForeign := by
  refine ⟨_, _, forex_simulation_ok b1 d h u hd.ne' hh.ne',
    forex_simulation_ok b2 d h u hd.ne' hh.ne', ?_, ?_⟩ <;> simp [hd]

/-- C7 witness: budgets 100000 and 50000 with the default rates. -/
theorem spec_C7_witness :
    ∃ r1 r2, forex_simulation 100000 (141 / 100) (891 / 10) (145 / 2) = Except.ok r1 ∧
      forex_simulation 50000 (141 / 100) (891 / 10) (145 / 2) = Except.ok r2 ∧
      r1.breakEvenUsdToForeign = some ((891 / 10) / (141 / 100)) ∧
      r2.breakEvenUsdToForeign = r1.breakEvenUsdToForeign :=
  spec_C7_budget_invariance 100000 50000 (141 / 100) (891 / 10) (145 / 2)
    (by norm_num) (by norm_num) (by norm_num) (by norm_num) (by norm_num)

/-- C8: for every valid input, the break-even rate `plot_forex_graph`
reports equals homeToIntermediateRate / directRate, unconditionally and
without any range check (no hypothesis relates it to the interval). -/
theorem spec_C8_curve_breakeven_unconditional (b d h lo hi : ℚ)
    (hd : 0 < d) (hh : 0 < h) :
    ∃ c, plot_forex_graph b d h (lo, hi) = Except.ok c ∧
      c.breakEvenUsdToForeign = h / d :=
  ⟨_, plot_forex_graph_ok b d h lo hi hd.ne' hh.ne', rfl⟩

/-- C8 witness: with range (10, 20) the break-even rate 89.1 / 1.41 ≈ 63.19
lies outside the requested interval and is still reported. -/
theorem spec_C8_witness :
    (∃ c, plot_forex_graph 100000 (141 / 100) (891 / 10) (10, 20) = Except.ok c ∧
      c.breakEvenUsdToForeign = (891 / 10) / (141 / 100)) ∧
    (20 : ℚ) < (891 / 10) / (141 / 100) :=
  ⟨spec_C8_curve_breakeven_unconditional 100000 (141 / 100) (891 / 10) 10 20
    (by norm_num) (by norm_num), by norm_num⟩

/-- C9: `plot_forex_graph` called with a reversed range raises no error; it
applies min and max to the pair, so for any order of the two bounds the
sample sequence is nondecreasing, starts at the smaller bound and ends at
the larger bound. -/
theorem spec_C9_reversed_range (b d h x y : ℚ) (hb : 0 < b) (hd : 0 < d) (hh : 0 < h) :
    ∃ c, plot_forex_graph b d h (x, y) = Except.ok c ∧
      c.usdRates.head? = some (min x y) ∧
      c.usdRates.getLast? = some (max x y) ∧
      (∀ i : ℕ, ∀ hb1 : i + 1 < c.usdRates.length, ∀ hb0 : i < c.usdRates.length,
        c.usdRates[i] ≤ c.usdRates[i + 1]) := by
  refine ⟨_, plot_forex_graph_ok b d h x y hd.ne' hh.ne', ?_, ?_, ?_⟩ <;> dsimp only
  · exact linspace_head _ _
  · exact linspace_last _ _
  · intro i hb1 hb0
    rw [linspace_getElem _ _ (i + 1) hb1, linspace_getElem _ _ i hb0]
    have hmm : (0 : ℚ) ≤ max x y - min x y := sub_nonneg.mpr (min_le_max)
    have : (max x y - min x y) * i ≤ (max x y - min x y) * (i + 1 : ℕ) := by
      apply mul_le_mul_of_nonneg_left _ hmm
      push_cast
      linarith
    linarith

/-- C9 witness: the reversed range (85, 60). -/
theorem spec_C9_witness :
    ∃ c, plot_forex_graph 100000 (141 / 100) (891 / 10) (85, 60) = Except.ok c ∧
      c.usdRates.head? = some (min 85 60) ∧
      c.usdRates.getLast? = some (max 85 60) ∧
      (∀ i : ℕ, ∀ hb1 : i + 1 < c.usdRates.length, ∀ hb0 : i < c.usdRates.length,
        c.usdRates[i] ≤ c.usdRates[i + 1]) :=
  spec_C9_reversed_range 100000 (141 / 100) (891 / 10) 85 60
    (by norm_num) (by norm_num) (by norm_num)

/-- C10: `forex_simulation` divides by directRate and homeToIntermediateRate
without any guard: a zero directRate raises ZeroDivisionError, a zero
homeToIntermediateRate (with nonzero directRate) raises ZeroDivisionError,
and whenever a result is returned whose break-even intermediate→foreign
field is absent, directRate is strictly negative. -/
theorem spec_C10_division_unguarded (b d h u : ℚ) (r : SimResult) :
    forex_simulation b 0 h u = Except.error "ZeroDivisionError" ∧
    (d ≠ 0 → forex_simulation b d 0 u = Except.error "ZeroDivisionError") ∧
    (forex_simulation b d h u = Except.ok r → r.breakEvenUsdToForeign = none → d < 0) := by
  refine ⟨?_, ?_, ?_⟩
  · simp [forex_simulation, pyDiv, Bind.bind, Except.bind]
  · intro hd
    simp [forex_simulation, pyDiv, hd, Bind.bind, Except.bind]
  · intro hok hnone
    by_cases hd : d = 0
    · rw [hd] at hok
      simp [forex_simulation, pyDiv, Bind.bind, Except.bind] at hok
    by_cases hh : h = 0
    · rw [hh] at hok
      simp [forex_simulation, pyDiv, hd, Bind.bind, Except.bind] at hok
    rw [forex_simulation_ok b d h u hd hh] at hok
    obtain rfl : r = _ := (Except.ok.injEq _ _).mp hok.symm
    by_cases hdp : 0 < d
    · simp [hdp] at hnone
    · exact lt_of_le_of_ne (not_lt.mp hdp) hd
